import Mathlib

/-!
Shallow embedding of the `scaffolding` repository's application logic:
the persisted Zustand application store
(`src/apps/mfe-template/src/shared/hooks/use-query.ts`), the `debounce`
utility (`src/apps/mfe-template/src/utils/date-helpers.ts`), and the
module error boundary with its default error handler
(`src/unnamed/part_002`, `src/unnamed/part_003`).
-/

namespace Scaffolding

/-- The `"light" | "dark"` union type of the `theme` field. -/
inductive Theme where
  | light
  | dark
deriving DecidableEq, Repr

/-- Structure `AppState` from `use-query.ts`: theme, language, online flag and the
last-activity timestamp (`Date` embedded as a `Nat` epoch value). -/
structure AppState where
  theme : Theme
  language : String
  isOnline : Bool
  lastActivity : Nat
deriving DecidableEq, Repr

/-- Definition `initialState` from `use-query.ts`; `new Date()` at module load is the
explicit `now` argument. -/
def initialState (now : Nat) : AppState :=
  { theme := Theme.light
    language := "en"
    isOnline := true
    lastActivity := now }

/-- Action `setTheme: theme => set({ theme })`; Zustand's `set` merges the partial
update into the existing state. -/
def setTheme (theme : Theme) (s : AppState) : AppState :=
  { s with theme := theme }

/-- Action `setLanguage: language => set({ language })`. -/
def setLanguage (language : String) (s : AppState) : AppState :=
  { s with language := language }

/-- Action `setOnlineStatus: isOnline => set({ isOnline })`. -/
def setOnlineStatus (isOnline : Bool) (s : AppState) : AppState :=
  { s with isOnline := isOnline }

/-- Action `updateLastActivity: () => set({ lastActivity: new Date() })`; the host
clock reading `now` is the explicit argument. -/
def updateLastActivity (now : Nat) (s : AppState) : AppState :=
  { s with lastActivity := now }

/-- Action `toggleTheme`: reads the current theme via `get()` and writes back the
other enum value (`theme === "light" ? "dark" : "light"`). -/
def toggleTheme (s : AppState) : AppState :=
  { s with theme := if s.theme = Theme.light then Theme.dark else Theme.light }

/-- The persisted subset `{ theme, language }` produced by `partialize`. -/
structure PersistedState where
  theme : Theme
  language : String
deriving DecidableEq, Repr

/-- Option `partialize: state => ({ theme: state.theme, language: state.language })`
from the `persist` options of `use-query.ts`. -/
def partialize (s : AppState) : PersistedState :=
  { theme := s.theme, language := s.language }

/-- JSON values, as written to the durable key by the persist middleware. -/
inductive Json where
  | str (s : String)
  | obj (fields : List (String × Json))

/-- The string literal stored for each theme enum value. -/
def Theme.toString : Theme → String
  | Theme.light => "light"
  | Theme.dark => "dark"

/-- Reading a theme enum value back from its stored string. -/
def Theme.ofString (s : String) : Option Theme :=
  if s = "light" then some Theme.light
  else if s = "dark" then some Theme.dark
  else none

/-- Serialization of the persisted subset under the `app-storage` key. -/
def encodePersisted (p : PersistedState) : Json :=
  Json.obj [("theme", Json.str p.theme.toString), ("language", Json.str p.language)]

/-- Field lookup in a serialized JSON object. -/
def Json.lookup (key : String) : Json → Option Json
  | Json.str _ => none
  | Json.obj fields => fields.lookup key

/-- Extracting a JSON string value. -/
def Json.asStr : Json → Option String
  | Json.str s => some s
  | Json.obj _ => none

/-- Deserialization of the persisted subset from the durable key. -/
def decodePersisted (j : Json) : Option PersistedState := do
  let t ← (← (j.lookup "theme")).asStr.bind Theme.ofString
  let l ← (← (j.lookup "language")).asStr
  pure { theme := t, language := l }

/-- Rehydration of a fresh store: the persisted fields are shallow-merged
over the fresh store's `initialState` (Zustand persist's default merge),
so `isOnline` and `lastActivity` keep their fresh defaults. -/
def rehydrate (j : Json) (now : Nat) : Option AppState :=
  (decodePersisted j).map fun p =>
    { initialState now with theme := p.theme, language := p.language }

/-- One store operation; `updateLastActivity` carries its host clock reading. -/
inductive Op where
  | setTheme (t : Theme)
  | setLanguage (l : String)
  | setOnlineStatus (b : Bool)
  | updateLastActivity (now : Nat)
  | toggleTheme
deriving DecidableEq, Repr

/-- Dispatch of one operation on the store state. -/
def applyOp (s : AppState) : Op → AppState
  | Op.setTheme t => setTheme t s
  | Op.setLanguage l => setLanguage l s
  | Op.setOnlineStatus b => setOnlineStatus b s
  | Op.updateLastActivity now => updateLastActivity now s
  | Op.toggleTheme => toggleTheme s

/-- Running a finite sequence of store operations. -/
def run (s : AppState) (ops : List Op) : AppState :=
  ops.foldl applyOp s

/-- The sequence of states after each operation of a run. -/
def trace (s : AppState) : List Op → List AppState
  | [] => []
  | op :: rest => applyOp s op :: trace (applyOp s op) rest

/-- Host-clock discipline: every `updateLastActivity` reading is at least the
previous reading (starting from `t`), in call order. -/
def timesOk : Nat → List Op → Bool
  | _, [] => true
  | t, Op.updateLastActivity u :: rest => decide (t ≤ u) && timesOk u rest
  | t, _ :: rest => timesOk t rest

/-- State of a `debounce(func, wait)` closure from `date-helpers.ts`:
`pending` is the one live timer (`timeout` variable) with its deadline and
the captured call arguments; `fired` records the invocations of `func`
in order. -/
structure DebounceState (α : Type) where
  pending : Option (Nat × α)
  fired : List α
deriving DecidableEq, Repr

/-- The debounced closure right after creation: no timer armed, `func`
never invoked. -/
def debounceInit (α : Type) : DebounceState α :=
  { pending := none, fired := [] }

/-- One call of the debounced function at host time `now`:
`clearTimeout(timeout)` cancels any pending timer, then
`setTimeout(() => func(...args), wait)` arms a fresh one. -/
def debounceCall (wait : Nat) (now : Nat) (args : α) (st : DebounceState α) :
    DebounceState α :=
  { st with pending := some (now + wait, args) }

/-- The host timer loop observed at time `now`: a pending timer whose
deadline has passed fires `func` with its captured arguments. -/
def debounceTick (now : Nat) (st : DebounceState α) : DebounceState α :=
  match st.pending with
  | some (deadline, args) =>
      if deadline ≤ now then { pending := none, fired := st.fired ++ [args] }
      else st
  | none => st

/-- A burst of timestamped calls of the debounced function; before each
call the host timer loop runs at that call's time. -/
def debounceRun (wait : Nat) (calls : List (Nat × α)) (st : DebounceState α) :
    DebounceState α :=
  calls.foldl (fun s c => debounceCall wait c.1 c.2 (debounceTick c.1 s)) st

/-- Structure `ErrorInfo` passed by the host to the boundary's error callback. -/
structure ErrorInfo where
  componentStack : String
deriving DecidableEq, Repr

/-- One line written to the diagnostic output (`console.error`). -/
structure LogEntry where
  message : String
  error : String
  info : ErrorInfo
deriving DecidableEq, Repr

/-- Function `handleError` from `src/unnamed/part_003`: logs the caught error to the
diagnostic output with the fixed message prefix. -/
def handleError (error : String) (errorInfo : ErrorInfo) : List LogEntry :=
  [{ message := "ErrorBoundary caught an error:", error := error, info := errorInfo }]

/-- A subtree's initial render: it either yields content or throws. -/
inductive ChildRender (V : Type) where
  | ok (v : V)
  | throws (e : String)
deriving DecidableEq, Repr

/-- What the boundary leaves on screen. -/
inductive Rendered (V : Type) where
  | content (v : V)
  | fallback (e : String) (info : ErrorInfo)
deriving DecidableEq, Repr

/-- Outcome of mounting a boundary: the rendered view, the calls made to the
injected `onError` handler, and the diagnostic output produced by them. -/
structure BoundaryResult (V : Type) where
  view : Rendered V
  handlerCalls : List (String × ErrorInfo)
  log : List LogEntry
deriving DecidableEq, Repr

/-- Modelled from the spec: the third-party `ErrorBoundary` component wrapped
by `ModuleErrorBoundary` is not part of this repository; per the spec, when a
descendant throws during render it invokes the injected `onError(error,
contextInfo)` callback and renders the fallback UI in place of the subtree,
and otherwise renders the subtree's content. -/
def renderErrorBoundary (onError : String → ErrorInfo → List LogEntry)
    (child : ChildRender V) (info : ErrorInfo) : BoundaryResult V :=
  match child with
  | ChildRender.ok v => { view := Rendered.content v, handlerCalls := [], log := [] }
  | ChildRender.throws e =>
      { view := Rendered.fallback e info
        handlerCalls := [(e, info)]
        log := onError e info }

/-- Component `ModuleErrorBoundary` from `src/unnamed/part_002` with its defaults: the
injected handler defaults to `handleError`. -/
def ModuleErrorBoundary (onError : String → ErrorInfo → List LogEntry := handleError)
    (child : ChildRender V) (info : ErrorInfo) : BoundaryResult V :=
  renderErrorBoundary onError child info

/-- C9: a freshly created store, before any rehydration, has theme `light`,
language `"en"`, `isOnline = true`, and `lastActivity` equal to the
creation timestamp. -/
theorem initialState_defaults (now : Nat) :
    (initialState now).theme = Theme.light ∧
    (initialState now).language = "en" ∧
    (initialState now).isOnline = true ∧
    (initialState now).lastActivity = now :=
  ⟨rfl, rfl, rfl, rfl⟩

/-- C4: for every enum value `v` and every store state, `setTheme v`
followed by a read of the theme field returns exactly `v`. -/
theorem setTheme_then_read (v : Theme) (s : AppState) :
    (setTheme v s).theme = v :=
  rfl

/-- C2: `toggleTheme` is an involution on the theme field: applied twice in
sequence it returns the store's theme to its original value. -/
theorem toggleTheme_involutive (s : AppState) :
    (toggleTheme (toggleTheme s)).theme = s.theme := by
  cases s with
  | mk t l o a => cases t <;> rfl

/-- C5: starting from the initial state, after every finite sequence of
store operations the theme field is one of the two enum values. -/
theorem theme_enum_invariant (now : Nat) (ops : List Op) :
    (run (initialState now) ops).theme = Theme.light ∨
    (run (initialState now) ops).theme = Theme.dark := by
  cases h : (run (initialState now) ops).theme with
  | light => exact Or.inl rfl
  | dark => exact Or.inr rfl

/-- C6: `setOnlineStatus` and `updateLastActivity` leave the persisted
subset computed by `partialize` unchanged, for every state, boolean and
clock reading. -/
theorem persisted_subset_frame (s : AppState) (b : Bool) (now : Nat) :
    partialize (setOnlineStatus b s) = partialize s ∧
    partialize (updateLastActivity now s) = partialize s :=
  ⟨rfl, rfl⟩

/-- C8: every mutator updates only its own field: `setTheme` leaves
language, online flag and last activity unchanged; `setLanguage`,
`setOnlineStatus`, `updateLastActivity` and `toggleTheme` likewise leave
every field other than their own unchanged. -/
theorem mutators_frame (s : AppState) (t : Theme) (l : String) (b : Bool) (u : Nat) :
    ((setTheme t s).language = s.language ∧
     (setTheme t s).isOnline = s.isOnline ∧
     (setTheme t s).lastActivity = s.lastActivity) ∧
    ((setLanguage l s).theme = s.theme ∧
     (setLanguage l s).isOnline = s.isOnline ∧
     (setLanguage l s).lastActivity = s.lastActivity) ∧
    ((setOnlineStatus b s).theme = s.theme ∧
     (setOnlineStatus b s).language = s.language ∧
     (setOnlineStatus b s).lastActivity = s.lastActivity) ∧
    ((updateLastActivity u s).theme = s.theme ∧
     (updateLastActivity u s).language = s.language ∧
     (updateLastActivity u s).isOnline = s.isOnline) ∧
    ((toggleTheme s).language = s.language ∧
     (toggleTheme s).isOnline = s.isOnline ∧
     (toggleTheme s).lastActivity = s.lastActivity) :=
  ⟨⟨rfl, rfl, rfl⟩, ⟨rfl, rfl, rfl⟩, ⟨rfl, rfl, rfl⟩, ⟨rfl, rfl, rfl⟩,
   ⟨rfl, rfl, rfl⟩⟩

/-- C1: writing the store's persisted subset through `partialize`,
serializing it, and rehydrating a fresh store from the serialized value
yields exactly the persisted theme and language, while `isOnline` and
`lastActivity` take the fresh store's initial defaults. -/
theorem persisted_subset_roundtrip (s : AppState) (now : Nat) :
    rehydrate (encodePersisted (partialize s)) now =
      some { theme := s.theme
             language := s.language
             isOnline := true
             lastActivity := now } := by
  cases s with
  | mk t l o a => cases t <;> rfl

/-- C3: mounting `ModuleErrorBoundary` around a subtree that throws during
its initial render shows the fallback view, invokes the injected `onError`
handler exactly once with the thrown error, and the default handler
`handleError` writes the error to the diagnostic output. -/
theorem boundary_catches_render_throw (V : Type) (e : String) (info : ErrorInfo) :
    (ModuleErrorBoundary handleError (ChildRender.throws e : ChildRender V) info).view =
        Rendered.fallback e info ∧
    (ModuleErrorBoundary handleError (ChildRender.throws e : ChildRender V) info).handlerCalls =
        [(e, info)] ∧
    (ModuleErrorBoundary handleError (ChildRender.throws e : ChildRender V) info).log =
        [{ message := "ErrorBoundary caught an error:", error := e, info := info }] :=
  ⟨rfl, rfl, rfl⟩

/-- C7: if `updateLastActivity` is invoked in call order with non-decreasing
host clock readings (each at least the store's current `lastActivity`),
then across every sequence of store operations the `lastActivity` field is
monotonically non-decreasing along the trace. -/
theorem lastActivity_monotone (s : AppState) (ops : List Op)
    (h : timesOk s.lastActivity ops = true) :
    List.Chain' (· ≤ ·) ((s :: trace s ops).map AppState.lastActivity) := by
  induction ops generalizing s with
  | nil => simp [trace]
  | cons op rest ih =>
    have key : s.lastActivity ≤ (applyOp s op).lastActivity ∧
        timesOk (applyOp s op).lastActivity rest = true := by
      cases op with
      | updateLastActivity u =>
          simp only [timesOk, Bool.and_eq_true, decide_eq_true_eq] at h
          exact ⟨h.1, h.2⟩
      | setTheme t => exact ⟨le_refl _, h⟩
      | setLanguage l => exact ⟨le_refl _, h⟩
      | setOnlineStatus b => exact ⟨le_refl _, h⟩
      | toggleTheme => exact ⟨le_refl _, h⟩
    have tail := ih (applyOp s op) key.2
    simp only [trace, List.map_cons, List.chain'_cons] at tail ⊢
    exact ⟨key.1, tail⟩

/-- Concrete instance of `lastActivity_monotone`: a run with two clock
readings `7` and `9` after creation at `5`, interleaved with non-clock
operations, has a non-decreasing `lastActivity` trace. -/
theorem lastActivity_monotone_witness :
    timesOk (initialState 5).lastActivity
        [Op.updateLastActivity 7, Op.setOnlineStatus false,
         Op.updateLastActivity 9, Op.toggleTheme] = true ∧
    List.Chain' (· ≤ ·)
      ((initialState 5 ::
          trace (initialState 5)
            [Op.updateLastActivity 7, Op.setOnlineStatus false,
             Op.updateLastActivity 9, Op.toggleTheme]).map AppState.lastActivity) :=
  ⟨by decide, lastActivity_monotone (initialState 5)
      [Op.updateLastActivity 7, Op.setOnlineStatus false,
       Op.updateLastActivity 9, Op.toggleTheme] (by decide)⟩

/-- Inside a burst (each call arrives strictly before the previous call's
deadline), running the remaining calls only re-arms the timer: nothing
fires, and the pending timer ends up carrying the last call's deadline and
arguments. -/
theorem debounceRun_burst (wait : Nat) (cs : List (Nat × α)) (c0 : Nat × α)
    (f : List α)
    (h : List.Chain' (fun c c2 => c2.1 < c.1 + wait) (c0 :: cs)) :
    debounceRun wait cs { pending := some (c0.1 + wait, c0.2), fired := f } =
      { pending := some ((cs.getLastD c0).1 + wait, (cs.getLastD c0).2)
        fired := f } := by
  induction cs generalizing c0 with
  | nil => rfl
  | cons c cs ih =>
    rw [List.chain'_cons] at h
    have hstep :
        debounceCall wait c.1 c.2
            (debounceTick c.1
              ({ pending := some (c0.1 + wait, c0.2), fired := f } : DebounceState α)) =
          { pending := some (c.1 + wait, c.2), fired := f } := by
      simp [debounceTick, debounceCall, Nat.not_le.mpr h.1]
    calc debounceRun wait (c :: cs)
          { pending := some (c0.1 + wait, c0.2), fired := f }
        = debounceRun wait cs
            (debounceCall wait c.1 c.2
              (debounceTick c.1
                { pending := some (c0.1 + wait, c0.2), fired := f })) := rfl
      _ = debounceRun wait cs { pending := some (c.1 + wait, c.2), fired := f } := by
            rw [hstep]
      _ = { pending := some ((cs.getLastD c).1 + wait, (cs.getLastD c).2)
            fired := f } := ih c h.2
      _ = { pending := some (((c :: cs).getLastD c0).1 + wait,
              ((c :: cs).getLastD c0).2)
            fired := f } := by rw [List.getLastD_cons]

/-- C10: when a burst of calls to the debounced function all arrive before
the previous call's wait interval elapses, each call cancels the pending
timer before arming a new one, so after the last deadline passes `func`
has been invoked exactly once, with the arguments of the last call. -/
theorem debounce_last_call_wins (wait : Nat) (c0 : Nat × α) (cs : List (Nat × α))
    (h : List.Chain' (fun c c2 => c2.1 < c.1 + wait) (c0 :: cs)) :
    debounceTick ((cs.getLastD c0).1 + wait)
        (debounceRun wait (c0 :: cs) (debounceInit α)) =
      { pending := none, fired := [(cs.getLastD c0).2] } := by
  have hfirst :
      debounceRun wait (c0 :: cs) (debounceInit α) =
        debounceRun wait cs
          ({ pending := some (c0.1 + wait, c0.2), fired := [] } : DebounceState α) := rfl
  rw [hfirst, debounceRun_burst wait cs c0 [] h]
  simp [debounceTick]

/-- Concrete instance of `debounce_last_call_wins`: with `wait = 10`, calls
at times `0`, `5`, `9` with arguments `1`, `2`, `3` fire `func` once with
argument `3` after the last deadline. -/
theorem debounce_last_call_wins_witness :
    List.Chain' (fun c c2 => c2.1 < c.1 + 10)
        (((0, 1) : Nat × Nat) :: [(5, 2), (9, 3)]) ∧
    debounceTick ((([(5, 2), (9, 3)] : List (Nat × Nat)).getLastD (0, 1)).1 + 10)
        (debounceRun 10 (((0, 1) : Nat × Nat) :: [(5, 2), (9, 3)]) (debounceInit Nat)) =
      { pending := none, fired := [(([(5, 2), (9, 3)] : List (Nat × Nat)).getLastD (0, 1)).2] } :=
  ⟨by norm_num [List.chain'_cons],
   debounce_last_call_wins 10 (0, 1) [(5, 2), (9, 3)] (by norm_num [List.chain'_cons])⟩

end Scaffolding
